import Mathlib

/-!
Verification of the Trust-Lens backend core (src/backend/main.py and
src/backend/ai_generator.py) against its natural-language specification.

The Python code is shallowly embedded: every definition below is a direct
translation of a function or constant of the source.  Python regular
expressions (used via re.search) are embedded as a small executable
derivative-based matcher over explicit regex syntax trees; the word-boundary
patterns (Python \b) get dedicated search functions, since \b is contextual.
Network effects (the scrape call, the Gemini enhancement call, and endpoint
exceptions) are passed in as explicit parameters, so every embedded function
is a pure, executable Lean function.

Character-level conventions: Python str.lower, \w, [A-Z] and whitespace
classes are modelled on their ASCII behaviour, which is what all string
constants of the program exercise.
-/

/- ===== basic string utilities ===== -/

def lowerL (s : String) : List Char := s.data.map Char.toLower

def startsWithL : List Char → List Char → Bool
  | [], _ => true
  | _ :: _, [] => false
  | a :: as, b :: bs => a == b && startsWithL as bs

/-- Python substring containment (`needle in hay`). -/
def containsSub (needle : List Char) : List Char → Bool
  | [] => startsWithL needle []
  | c :: cs => startsWithL needle (c :: cs) || containsSub needle cs

def containsStr (w : String) (l : List Char) : Bool := containsSub w.data l

/-- Python \w on ASCII: letters, digits, underscore. -/
def isWordChar (c : Char) : Bool := c.isAlphanum || c == '_'

/-- Python \s: space, tab, newline, carriage return, vertical tab, form feed. -/
def isPySpace (c : Char) : Bool :=
  c == ' ' || c == '\t' || c == '\n' || c == '\r' || c == '\x0b' || c == '\x0c'

def isUpperAZ (c : Char) : Bool := 'A' ≤ c && c ≤ 'Z'

/- ===== a derivative-based matcher for the re.search patterns ===== -/

inductive Regex where
  | emp : Regex
  | eps : Regex
  | cls : (Char → Bool) → Regex
  | cat : Regex → Regex → Regex
  | alt : Regex → Regex → Regex
  | star : Regex → Regex

def Regex.nullable : Regex → Bool
  | .emp => false
  | .eps => true
  | .cls _ => false
  | .cat r1 r2 => r1.nullable && r2.nullable
  | .alt r1 r2 => r1.nullable || r2.nullable
  | .star _ => true

def Regex.deriv : Regex → Char → Regex
  | .emp, _ => .emp
  | .eps, _ => .emp
  | .cls p, c => if p c then .eps else .emp
  | .cat r1 r2, c =>
    if r1.nullable then .alt (.cat (r1.deriv c) r2) (r2.deriv c)
    else .cat (r1.deriv c) r2
  | .alt r1 r2, c => .alt (r1.deriv c) (r2.deriv c)
  | .star r, c => .cat (r.deriv c) (.star r)

/-- Does some prefix of the word match the regex? -/
def Regex.pmatch : Regex → List Char → Bool
  | r, [] => r.nullable
  | r, c :: cs => r.nullable || (r.deriv c).pmatch cs

/-- Python re.search: does the regex match somewhere inside the word? -/
def Regex.search : Regex → List Char → Bool
  | r, [] => r.nullable
  | r, c :: cs => r.pmatch (c :: cs) || r.search cs

def rlit (s : String) : Regex :=
  s.data.foldr (fun c r => Regex.cat (Regex.cls (fun x => x == c)) r) Regex.eps

def rseq : List Regex → Regex
  | [] => Regex.eps
  | [r] => r
  | r :: rs => Regex.cat r (rseq rs)

def ralts : List Regex → Regex
  | [] => Regex.emp
  | [r] => r
  | r :: rs => Regex.alt r (ralts rs)

/-- Python `.` : any character except a newline. -/
def rdot : Regex := Regex.cls (fun c => c != '\n')

/-- Python `.*`. -/
def rdots : Regex := Regex.star rdot

def ropt (r : Regex) : Regex := Regex.alt r Regex.eps

def rplus (r : Regex) : Regex := Regex.cat r (Regex.star r)

/- ===== word-boundary search for the \b(...)\b patterns ===== -/

def boundaryBefore : Option Char → Bool
  | none => true
  | some c => !isWordChar c

def boundaryAfter : List Char → Bool
  | [] => true
  | c :: _ => !isWordChar c

def wordAt (w : List Char) (s : List Char) : Bool :=
  startsWithL w s && boundaryAfter (s.drop w.length)

def wordSearchAux (w : List Char) : Option Char → List Char → Bool
  | prev, [] => boundaryBefore prev && wordAt w []
  | prev, c :: cs => (boundaryBefore prev && wordAt w (c :: cs)) || wordSearchAux w (some c) cs

/-- Python re.search of \bw\b where w is made of word characters (and spaces). -/
def wordOccurs (w : String) (s : List Char) : Bool := wordSearchAux w.data none s

def anyWord (ws : List String) (s : List Char) : Bool := ws.any (fun w => wordOccurs w s)

/- ===== data model (src/backend/main.py lines 32-69) ===== -/

inductive SignalLevel where
  | green
  | yellow
  | red
  deriving DecidableEq, Repr

structure Signal where
  name : String
  level : SignalLevel
  message : String
  confidence : ℚ
  deriving DecidableEq, Repr

structure BusinessPriorityAssessment where
  strategicImportance : String
  attentionWorthiness : String
  riskToRewardBalance : String
  timeRecommendation : String
  confidenceFactors : List String
  concerns : List String
  deriving DecidableEq, Repr

structure CompanyAssessment where
  visibility : String
  trackRecord : String
  flags : List String
  confidenceFactors : List String
  deriving DecidableEq, Repr

/-- Result of WebsiteScraper.scrape (success fields; a failed scrape has
success = false, a skipped scrape is modelled as Option.none at use sites). -/
structure ScrapeResult where
  success : Bool
  title : String := ""
  description : String := ""
  has_contact : Bool := false
  has_about : Bool := false
  social_links : List String := []
  domain : String := ""
  deriving DecidableEq, Repr

/- ===== context detector (src/backend/main.py lines 122-145) ===== -/

def legal_markers : List String :=
  ["terms of service", "user agreement", "privacy policy", "legal agreement",
   "contract", "terms and conditions", "terms of use", "binding arbitration",
   "liability waiver", "indemnification", "intellectual property"]

def legal_count (lower : List Char) : Nat :=
  legal_markers.countP (fun marker => containsStr marker lower)

def partnership_words : List String :=
  ["partnership", "collaboration", "synergy", "strategic alliance"]

def client_words : List String :=
  ["client inquiry", "customer inquiry", "interested in your services"]

def vendor_words : List String := ["vendor", "supplier", "quote", "pricing"]

def employment_words : List String :=
  ["job offer", "employment", "hiring", "position", "salary"]

def detect_context (content : String) (_content_type : String) : String :=
  let lower := lowerL content
  if 2 ≤ legal_count lower ∨ containsStr "terms of service" lower
      ∨ containsStr "user agreement" lower then
    "legal_agreement"
  else if partnership_words.any (fun w => containsStr w lower) then
    "partnership_offer"
  else if client_words.any (fun w => containsStr w lower) then
    "client_inquiry"
  else if vendor_words.any (fun w => containsStr w lower)
      ∧ ¬ containsStr "contract" lower then
    "vendor_proposal"
  else if employment_words.any (fun w => containsStr w lower) then
    "consumer_message"
  else
    "consumer_message"

/- ===== legal clause rule (src/backend/main.py lines 157-197) ===== -/

def CONCERNING_PATTERNS : List (Regex × String × String) :=
  [ (ralts [rlit "irrevocably agree",
      rseq [rlit "binding arbitration", rdots, rlit "waive", rdots,
            ralts [rlit "court", rlit "trial", rlit "jury"]]],
     "Binding Arbitration & Rights Waiver", "VERY_HIGH"),
    (ralts [rseq [rlit "class action", rdots, rlit "waive"],
            rseq [rlit "waive", rdots, rlit "class action"]],
     "Class Action Waiver", "VERY_HIGH"),
    (ralts [rseq [rlit "unilateral", rdots, rlit "change"],
            rseq [rlit "modify", rdots, rlit "without notice"],
            rlit "without notification"],
     "Unilateral Modification Rights", "HIGH"),
    (ralts [rseq [rlit "sell", rdots, rlit "data"],
            rseq [rlit "monetize", rdots, rlit "data"],
            rseq [rlit "third", rdot, rlit "parties", rdots, rlit "without restriction"],
            rseq [rlit "transferable", rdots, rlit "license", rdots, rlit "data"]],
     "Data Monetization Rights", "VERY_HIGH"),
    (ralts [rseq [rlit "perpetual", rdots, rlit "irrevocable", rdots, rlit "license"],
            rseq [rlit "worldwide", rdots, rlit "license", rdots, rlit "content"]],
     "Irrevocable Content License", "HIGH"),
    (ralts [rseq [rlit "non", rdot, rlit "refundable", rdots, rlit "error"],
            rseq [rlit "no", rdots, rlit "refund", rdots, rlit "error"],
            rseq [rlit "payments", rdots, rlit "non", rdot, rlit "refundable"]],
     "No-Refund Policy", "MEDIUM"),
    (ralts [rseq [rlit "forfeit", rdots, ralts [rlit "balance", rlit "credits"]],
            rseq [rlit "void", rdots, ralts [rlit "benefits", rlit "rewards"]],
            rlit "no compensation"],
     "Asset Forfeiture on Termination", "HIGH"),
    (ralts [rseq [rlit "not liable", rdots, ralts [rlit "theft", rlit "breach", rlit "loss"]],
            rseq [rlit "waiver", rdots, rlit "liability", rdots, rlit "negligence"]],
     "Broad Liability Waiver", "VERY_HIGH"),
    (ralts [rseq [rlit "indemnif", rdots,
                  ralts [rlit "our negligence", rlit "our errors"]],
            rseq [rlit "hold harmless", rdots, rlit "negligence"]],
     "Indemnification of Negligence", "VERY_HIGH"),
    (ralts [rlit "private arbitration",
            rseq [rlit "no", rdots, ralts [rlit "jury", rlit "court", rlit "appeal"]]],
     "Private Arbitration Mandate", "HIGH"),
    (ralts [rseq [rlit "intellectual property", rdots, rlit "become", rdots, rlit "ours"],
            rseq [rlit "assign", rdots, rlit "all rights"]],
     "IP Assignment Clause", "HIGH"),
    (ralts [rseq [rlit "silence", rdots, rlit "consent"],
            rseq [rlit "deemed", rdots, rlit "acceptance"],
            rseq [rlit "failure", rdots, rlit "object", rdots, rlit "consent"]],
     "Silence-as-Consent", "HIGH"),
    (ralts [rseq [rlit "survive", rdots, rlit "termination"],
            rseq [rlit "survive", rdots, rlit "death"],
            rseq [rlit "perpetual", rdots, rlit "obligation"]],
     "Perpetual Obligation", "MEDIUM"),
    (ralts [rseq [rlit "consent", rdots, rlit "future", rdots, rlit "terms"],
            rlit "terms not yet written"],
     "Future Terms Consent", "VERY_HIGH") ]

def legalLevel (severity : String) : SignalLevel :=
  if severity = "VERY_HIGH" ∨ severity = "HIGH" then .red else .yellow

def legalConfidence (severity : String) : ℚ :=
  if severity = "VERY_HIGH" then 0.95 else if severity = "HIGH" then 0.85 else 0.75

def legalMessage (severity name : String) : String :=
  severity ++ " RISK: " ++ name ++
    " - This provision significantly affects your rights and recourse options."

def mkLegalSignal (t : Regex × String × String) : Signal :=
  { name := t.2.1, level := legalLevel t.2.2,
    message := legalMessage t.2.2 t.2.1, confidence := legalConfidence t.2.2 }

/-- LegalClauseRule.evaluate_all. -/
def legal_evaluate_all (content : String) (context : String) : List Signal :=
  if context = "legal_agreement" then
    CONCERNING_PATTERNS.filterMap
      (fun t => if t.1.search (lowerL content) then some (mkLegalSignal t) else none)
  else []

/- ===== high-pressure pattern rule (src/backend/main.py lines 199-225) ===== -/

def urgency_words : List String :=
  ["urgent", "asap", "immediately", "now", "today", "hurry", "rush"]

def action_words : List String := ["click", "respond", "reply", "act", "confirm"]

def consequence_words : List String :=
  ["expire", "lose", "miss out", "forfeit", "limited"]

/-- HighPressurePatternRule.evaluate. -/
def high_pressure_evaluate (content : String) (_content_type : String)
    (_context : String) : Option Signal :=
  let lower := lowerL content
  let urgency := anyWord urgency_words lower
  let action_demand := anyWord action_words lower
  let consequence := anyWord consequence_words lower
  if urgency && action_demand && consequence then
    some { name := "Predatory Pressure Pattern", level := .red,
           message := "URGENT + ACTION DEMAND + CONSEQUENCE = classic manipulation tactic designed to bypass critical thinking.",
           confidence := 0.95 }
  else if urgency && action_demand then
    some { name := "High-Pressure Tactics", level := .red,
           message := "Urgency combined with action demands is a common social engineering pattern.",
           confidence := 0.85 }
  else
    none

/- ===== verifiability rule (src/backend/main.py lines 227-256) ===== -/

def business_contexts : List String :=
  ["partnership_offer", "client_inquiry", "vendor_proposal"]

def urlSearchRegex : Regex :=
  rseq [rlit "http", ropt (rlit "s"), rlit "://",
        rplus (Regex.cls (fun c => !isPySpace c))]

def emailSearchRegex : Regex :=
  rseq [rlit "@", rplus (Regex.cls isWordChar), rlit ".",
        ralts [rlit "com", rlit "io", rlit "ai", rlit "co", rlit "org", rlit "net"]]

def dotThenWord : List Char → Bool
  | '.' :: c :: _ => isWordChar c
  | _ => false

/-- One alternative of \b(Inc\.?|LLC|Ltd\.?|Corp\.?|Company)\b matched at the
head of s: the token, then either a word boundary, or (when the alternative
carries an optional literal dot) the dot followed by a word character, which is
how the trailing \b can be satisfied after a consumed dot. -/
def suffixTokenAt (w : List Char) (optDot : Bool) (s : List Char) : Bool :=
  startsWithL w s &&
    (boundaryAfter (s.drop w.length) || (optDot && dotThenWord (s.drop w.length)))

def companySuffixHit (s : List Char) : Bool :=
  suffixTokenAt "Inc".data true s || suffixTokenAt "LLC".data false s ||
  suffixTokenAt "Ltd".data true s || suffixTokenAt "Corp".data true s ||
  suffixTokenAt "Company".data false s

def companySuffixAux : Option Char → List Char → Bool
  | _, [] => false
  | prev, c :: cs =>
    (boundaryBefore prev && companySuffixHit (c :: cs)) || companySuffixAux (some c) cs

/-- re.search of r'\b(Inc\.?|LLC|Ltd\.?|Corp\.?|Company)\b' on the raw content. -/
def has_company_name (content : String) : Bool := companySuffixAux none content.data

def verifiable_count (content : String) : Nat :=
  (if urlSearchRegex.search content.data then 1 else 0) +
  (if containsStr "linkedin.com" (lowerL content) then 1 else 0) +
  (if emailSearchRegex.search content.data then 1 else 0) +
  (if has_company_name content then 1 else 0)

def limitedMessage (verifiable_count : Nat) : String :=
  "Only " ++ toString verifiable_count ++
    "/4 verification elements present. Request additional proof of legitimacy."

/-- VerifiabilityRule.evaluate. -/
def verifiability_evaluate (content : String) (_content_type : String)
    (context : String) : Option Signal :=
  if context ∈ business_contexts then
    let vc := verifiable_count content
    if vc = 0 then
      some { name := "Zero Verifiable Identity", level := .red,
             message := "No company website, LinkedIn, corporate email, or legal name provided. Cannot verify legitimacy.",
             confidence := 0.9 }
    else if vc ≤ 2 then
      some { name := "Limited Verifiability", level := .yellow,
             message := limitedMessage vc, confidence := 0.75 }
    else
      none
  else
    none

/- ===== business priority (src/backend/main.py lines 260-304) ===== -/

def assess_business_priority (signals : List Signal) (_context : String)
    (severity_level : String) : BusinessPriorityAssessment :=
  let risk_count := signals.countP (fun s => s.level == .red)
  let green_count := signals.countP (fun s => s.level == .green)
  let quad : String × String × String × String :=
    if severity_level = "critical" ∨ severity_level = "high" then
      ("low", "ignore", "unfavorable", "Deprioritizeâ€”high risk indicators present")
    else if 2 ≤ green_count ∧ risk_count = 0 then
      ("high", "engage", "favorable", "Warrants prompt attention")
    else if 1 ≤ green_count ∧ risk_count ≤ 1 then
      ("medium", "monitor", "neutral", "Evaluate alongside other opportunities")
    else
      ("low", "ignore", "unfavorable", "Does not merit significant time investment")
  let confidence_factors :=
    (signals.filter (fun s => s.level == .green)).map (fun s => s.name)
  let concerns :=
    (signals.filter (fun s => s.level == .red || s.level == .yellow)).map (fun s => s.name)
  { strategicImportance := quad.1,
    attentionWorthiness := quad.2.1,
    riskToRewardBalance := quad.2.2.1,
    timeRecommendation := quad.2.2.2,
    confidenceFactors :=
      if confidence_factors = [] then ["Limited positive indicators"] else confidence_factors,
    concerns := if concerns = [] then ["No specific concerns flagged"] else concerns }

/- ===== company assessment (src/backend/main.py lines 306-349) ===== -/

def tld_list : List String := ["com", "io", "ai", "co", "org", "net"]

/-- The domain group of r'[\w.]+@([\w]+\.(com|io|ai|co|org|net))' matched at the
head of s: a maximal nonempty run of word characters, a dot, then the first
alternative of the trailing group that is a prefix of the rest.  The word run
must be maximal because a shorter run would have to be followed by the literal
dot, whose position then holds a word character. -/
def domainAt (s : List Char) : Option String :=
  let run := s.takeWhile isWordChar
  if run = [] then none
  else
    match s.drop run.length with
    | '.' :: rest =>
      match tld_list.find? (fun t => startsWithL t.data rest) with
      | some t => some (String.mk run ++ "." ++ t)
      | none => none
    | _ => none

def isLocalChar (c : Char) : Bool := isWordChar c || c == '.'

def prevLocal : Option Char → Bool
  | some p => isLocalChar p
  | none => false

/-- Leftmost match of re.search(r'[\w.]+@([\w]+\.(com|io|ai|co|org|net))'),
returning the captured domain group: scan for the first at-sign that is
preceded by a local-part character and followed by a well-formed domain. -/
def findCorpEmailAux : Option Char → List Char → Option String
  | _, [] => none
  | prev, c :: cs =>
    if c == '@' && prevLocal prev then
      match domainAt cs with
      | some d => some d
      | none => findCorpEmailAux (some c) cs
    else
      findCorpEmailAux (some c) cs

def findCorpEmail (content : String) : Option String :=
  findCorpEmailAux none content.data

def personal_domains : List String :=
  ["gmail.com", "yahoo.com", "hotmail.com", "outlook.com"]

/-- re.findall(r'(?:at|from|of)\s+([A-Z][\w\s]+(?:Inc|LLC|...))') is nonempty. -/
def companyNameRegex : Regex :=
  rseq [ralts [rlit "at", rlit "from", rlit "of"],
        rplus (Regex.cls isPySpace),
        Regex.cls isUpperAZ,
        rplus (Regex.cls (fun c => isWordChar c || isPySpace c)),
        ralts [rlit "Inc", rlit "LLC", rlit "Ltd", rlit "Corp", rlit "Company",
               rlit "Solutions", rlit "Technologies", rlit "AI", rlit "Labs"]]

def assess_company (content : String) (scraped : Option ScrapeResult) : CompanyAssessment :=
  let emailStep : List String × List String × String :=
    match findCorpEmail content with
    | some domain =>
      if ¬ (domain ∈ personal_domains) then
        (["Corporate email domain"], [], "claimed")
      else
        ([], ["Using personal email provider"], "unverified")
    | none => ([], ["No corporate email provided"], "unknown")
  let nameStep : List String × List String :=
    if companyNameRegex.search content.data then
      (["Company name provided"], [])
    else
      ([], ["Limited public visibility"])
  let visStep : String × List String × List String :=
    match scraped with
    | some s =>
      if s.success then
        if s.social_links ≠ [] then ("moderate", ["Active social media presence"], [])
        else ("limited", [], ["Limited online presence"])
      else ("unknown", [], [])
    | none => ("unknown", [], [])
  { visibility := visStep.1,
    trackRecord := emailStep.2.2,
    flags := emailStep.2.1 ++ nameStep.2 ++ visStep.2.2,
    confidenceFactors := emailStep.1 ++ nameStep.1 ++ visStep.2.1 }

/- ===== AI generator data model (src/backend/ai_generator.py lines 11-34) ===== -/

structure AISignal where
  id : String
  category : String
  title : String
  explanation : String
  details : Option String := none
  ruleId : String
  severity : Option String := none
  domain : Option String := none
  deriving DecidableEq, Repr

structure AIInput where
  inputType : String
  originalInput : String
  detectedContext : String
  signals : List AISignal
  businessPriority : Option BusinessPriorityAssessment := none
  companyAssessment : Option CompanyAssessment := none
  concernCount : Nat := 0
  severityLevel : String := "low"
  deriving DecidableEq, Repr

structure AIOutput where
  summary : String
  whatYouMightMiss : String
  actions : List String
  deriving DecidableEq, Repr

/- ===== TrustLensAI (src/backend/ai_generator.py lines 36-275) ===== -/

/-- TrustLensAI.determine_severity. -/
def determine_severity (input_data : AIInput) : String :=
  let count := input_data.concernCount
  if 6 ≤ count then "critical"
  else if 3 ≤ count then "high"
  else if 1 ≤ count then "moderate"
  else "low"

/-- TrustLensAI.build_compound_explanation. -/
def build_compound_explanation (signals : List AISignal) (_context : String)
    (severity : String) : String :=
  if severity = "critical" then
    "The combined presence of multiple high-impact clauses creates a systemic power imbalance. Individually, each provision might appear in standard contracts, but together they form a structure that: (1) eliminates your ability to dispute or seek remedy, (2) grants the other party unilateral control over terms and access, and (3) extends obligations beyond reasonable limits. This is not a balanced agreement."
  else if severity = "high" then
    "Several concerning provisions work together to shift significant control away from you. While not every clause is problematic on its own, their combination creates substantial risk exposure—particularly around dispute resolution, data rights, and unilateral changes. The structure favors the drafting party heavily."
  else if severity = "moderate" then
    let risk_signals := signals.filter (fun s => s.category == "risk")
    if risk_signals ≠ [] then
      "Detected " ++ toString risk_signals.length ++ " area" ++
        (if 1 < risk_signals.length then "s" else "") ++ " of concern: " ++
        String.intercalate ", " ((risk_signals.take 2).map (fun s => s.title)) ++
        ". These provisions warrant careful review before proceeding."
    else
      "Some indicators suggest caution is warranted. Review the specific signals detected."
  else
    "No significant risk patterns detected. Standard verification practices apply."

/-- TrustLensAI.build_what_you_might_miss. -/
def build_what_you_might_miss (_signals : List AISignal) (context : String)
    (severity : String) : String :=
  if context = "legal_agreement" then
    if severity = "critical" ∨ severity = "high" then
      "What you might miss: These clauses don\x27t just limit your current rights—they systematically remove your ability to challenge problems later. The binding arbitration clause means you cannot sue in court, even for serious harm. The unilateral change provision allows them to alter terms after you\x27ve committed, leaving you with no recourse. The data license grant is perpetual and irrevocable, extending beyond account closure. Combined, these create a legal structure where you bear all risk while they retain all control."
    else
      "No major red flags detected, but always verify: (1) Can you exit easily? (2) What happens to your data? (3) Can terms change without notice? Standard agreements should allow dispute resolution in court and limit data use to service provision."
  else if context = "partnership_offer" ∨ context = "vendor_proposal"
      ∨ context = "client_inquiry" then
    if severity = "critical" ∨ severity = "high" then
      "What you might miss: The urgency pressure combined with limited verifiability is a classic pattern. Legitimate opportunities don\x27t require immediate decisions without due diligence. The lack of corporate infrastructure (no verifiable domain, no LinkedIn presence) means you\x27re taking on partnership risk without validation. If this were credible, they would provide references and allow time for verification."
    else
      "Key verification steps: Confirm company registration, check for active social presence, request references from past partners. Credible businesses provide this information proactively."
  else
    if severity = "critical" ∨ severity = "high" then
      "What you might miss: Urgency + personal info requests + unknown sender = classic social engineering. The pressure to act fast is specifically designed to bypass your critical thinking. Legitimate entities don\x27t operate this way—they provide time, verifiable contact information, and don\x27t demand sensitive data via unsolicited messages."
    else
      "Verify sender identity through official channels (not reply links). Check for pressure tactics. When in doubt, pause and verify independently."

/-- TrustLensAI.build_actions. -/
def build_actions (context : String) (severity : String)
    (_signals : List AISignal) : List String :=
  if context = "legal_agreement" then
    if severity = "critical" then
      ["🛑 DO NOT ACCEPT without attorney review—this agreement contains systemic risk",
       "📋 Specifically challenge: binding arbitration clause, unilateral change rights, broad data license",
       "⚖️ Compare against industry-standard terms (e.g., major platform ToS)",
       "✋ Consider opting out—few services are worth surrendering these rights",
       "📄 Request modified terms removing arbitration and limiting data use"]
    else if severity = "high" then
      ["⚠️ Do not accept without understanding each flagged clause",
       "📋 Mark specific sections for legal review (arbitration, liability, data rights)",
       "🔍 Compare data handling and dispute terms against 2-3 similar services",
       "📧 Request clarification on: unilateral changes, termination, data retention",
       "✋ If protections are absent, consider alternative providers"]
    else
      ["✓ Review standard sections (liability, data use, termination)",
       "📋 Ensure you can delete account and data",
       "🔍 Verify dispute resolution is in court, not just arbitration"]
  else if context = "partnership_offer" ∨ context = "vendor_proposal" then
    if severity = "critical" ∨ severity = "high" then
      ["🛑 Do not proceed without verification—high-pressure + low-verifiability is a warning pattern",
       "📋 Request: Company registration, LinkedIn profiles, 2-3 references",
       "⏰ Insist on time for due diligence—legitimate partners allow this",
       "🔍 Search company name + \x27scam\x27 or \x27complaint\x27",
       "✋ If they resist verification, disengage immediately"]
    else
      ["📋 Request company website and LinkedIn verification",
       "📞 Schedule call after confirming company exists",
       "🔍 Check references before sharing proprietary information"]
  else
    if severity = "critical" ∨ severity = "high" then
      ["🛑 DO NOT CLICK links or respond—this shows classic manipulation patterns",
       "🗑️ Delete message and block sender",
       "🔍 Verify independently through official website (not reply links)",
       "💡 Report to platform if applicable",
       "⚠️ If you already clicked, scan device and change passwords"]
    else
      ["⚠️ Verify sender through official channels",
       "⏰ Take time—ignore urgency pressure",
       "🔍 Search message content for known scams"]

/-- Models the result of the HTTP call inside TrustLensAI.enhance_with_gemini
(src/backend/ai_generator.py lines 254-275): status is the response status
code, body is the candidate text extracted from the JSON when the response has
the expected candidates/content/parts shape and none when that shape is
missing.  A transport error or timeout raises and is caught by the surrounding
try/except, which yields None; call sites model that case by passing none for
the whole result. -/
def enhance_with_gemini (status : Nat) (body : Option String) : Option String :=
  if status = 200 then
    match body with
    | some text => some text.trim
    | none => none
  else
    none

/-- TrustLensAI.generate_summary.  api_key is the truthiness of the configured
key; gemini is the outcome of the awaited enhancement call (none models every
failure: exception, timeout, non-200 status, missing response shape). -/
def generate_summary (api_key : Bool) (gemini : Option String)
    (input_data : AIInput) : AIOutput :=
  let severity := determine_severity input_data
  let signals := input_data.signals
  let context := input_data.detectedContext
  let summary := build_compound_explanation signals context severity
  let what_you_might_miss := build_what_you_might_miss signals context severity
  let actions := build_actions context severity signals
  let summary2 :=
    if api_key && (severity == "critical" || severity == "high") then
      match gemini with
      | some enhanced => if enhanced ≠ "" then enhanced else summary
      | none => summary
    else
      summary
  { summary := summary2, whatYouMightMiss := what_you_might_miss, actions := actions }

/- ===== engine (src/backend/main.py lines 353-445) ===== -/

structure TrustAnalysis where
  overall_score : Int
  overall_level : String
  signals : List Signal
  external_checks : List String
  summary : String
  whatYouMightMiss : String
  recommendedActions : List String
  businessPriority : Option BusinessPriorityAssessment
  companyAssessment : Option CompanyAssessment
  detectedContext : String
  concernCount : Nat
  severityLevel : String
  deriving DecidableEq, Repr

/-- The inline severity computation of TrustLensEngine.analyze (main.py lines
384-401), as the triple (severity_level, overall_level, score).  The
overall_level strings reproduce the byte content of the source file. -/
def engineSeverity (concern_count : Nat) : String × String × Int :=
  if 6 ≤ concern_count then
    ("critical", "ðŸ”´ CRITICAL RISK", 15)
  else if 3 ≤ concern_count then
    ("high", "ðŸŸ  HIGH CONCERN", 35)
  else if 1 ≤ concern_count then
    ("moderate", "ðŸŸ¡ MODERATE RISK", 55)
  else
    ("low", "ðŸŸ¢ LOW RISK", 80)

/-- re.findall(r'https?://[^\s<>"{}|\\^`\[\]]+', content) is nonempty.  The
excluded characters of the class are written by code point where needed. -/
def urlFindallClass (c : Char) : Bool :=
  !(isPySpace c || c == '<' || c == '>' || c == '"' || c == '\x7b' || c == '\x7d' ||
    c == '|' || c == '\\' || c == '^' || c == '\x60' || c == '[' || c == ']')

def has_url (content : String) : Bool :=
  (rseq [rlit "http", ropt (rlit "s"), rlit "://",
         rplus (Regex.cls urlFindallClass)]).search content.data

def rule_class_names : List String :=
  ["LegalClauseRule", "HighPressurePatternRule", "VerifiabilityRule"]

/-- One element of the AISignal list built inside TrustLensEngine.analyze. -/
def engineAISignal (i : Nat) (s : Signal) : AISignal :=
  { id := "sig-" ++ toString i,
    category :=
      if s.level == .red then "risk"
      else if s.level == .yellow then "uncertainty"
      else "green",
    title := s.name,
    explanation := s.message,
    details := none,
    ruleId := rule_class_names.getD (i % rule_class_names.length) "",
    severity := some (if s.level == .red then "high" else "medium"),
    domain := none }

/-- The rule loop of TrustLensEngine.analyze: the legal rule contributes all
its signals, the other two each contribute their optional signal, in the
order the rules are registered. -/
def run_rules (content content_type context : String) : List Signal :=
  legal_evaluate_all content context
    ++ (high_pressure_evaluate content content_type context).toList
    ++ (verifiability_evaluate content content_type context).toList

/-- TrustLensEngine.analyze.  The network effects are parameters: api_key and
gemini feed generate_summary as above; scrape_result is what the scraper would
return for the first URL of the content (it is consulted only when the content
contains a URL, mirroring the `if urls:` guard). -/
def analyze (api_key : Bool) (gemini : Option String)
    (scrape_result : Option ScrapeResult)
    (content : String) (content_type : String) : TrustAnalysis :=
  let context := detect_context content content_type
  let scraped := if has_url content then scrape_result else none
  let signals := run_rules content content_type context
  let concern_count := signals.countP (fun s => s.level == .red)
  let sv := engineSeverity concern_count
  let ai_input : AIInput :=
    { inputType := content_type,
      originalInput := content,
      detectedContext := context,
      signals := signals.enum.map (fun p => engineAISignal p.1 p.2),
      businessPriority := none,
      companyAssessment := none,
      concernCount := concern_count,
      severityLevel := sv.1 }
  let ai_result := generate_summary api_key gemini ai_input
  let business_priority :=
    if context ∈ business_contexts then
      some (assess_business_priority signals context sv.1)
    else none
  let company_assessment :=
    if context ∈ business_contexts then
      some (assess_company content scraped)
    else none
  { overall_score := sv.2.2,
    overall_level := sv.2.1,
    signals := signals,
    external_checks := [],
    summary := ai_result.summary,
    whatYouMightMiss := ai_result.whatYouMightMiss,
    recommendedActions := ai_result.actions,
    businessPriority := business_priority,
    companyAssessment := company_assessment,
    detectedContext := context,
    concernCount := concern_count,
    severityLevel := sv.1 }

/- ===== compatibility endpoint (src/backend/main.py lines 466-518) ===== -/

/-- One dict of the request's signal list; absent keys are none (dict.get). -/
structure RawSignal where
  id : Option String := none
  category : Option String := none
  title : Option String := none
  explanation : Option String := none
  ruleId : Option String := none
  severity : Option String := none
  deriving DecidableEq, Repr

structure AIGenerateRequest where
  inputType : String
  originalInput : String
  detectedContext : String
  signals : List RawSignal
  businessPriority : Option BusinessPriorityAssessment := none
  companyAssessment : Option CompanyAssessment := none
  deriving DecidableEq, Repr

structure AIGenerateResponse where
  summary : String
  modelUsed : String
  fallback : Bool
  deriving DecidableEq, Repr

def convertRawSignal (sig : RawSignal) : AISignal :=
  { id := sig.id.getD "unknown",
    category := sig.category.getD "uncertainty",
    title := sig.title.getD "Unknown",
    explanation := sig.explanation.getD "",
    details := none,
    ruleId := sig.ruleId.getD "unknown",
    severity := some (sig.severity.getD "medium"),
    domain := none }

def endpointAIInput (request : AIGenerateRequest) : AIInput :=
  { inputType := request.inputType,
    originalInput := request.originalInput,
    detectedContext := request.detectedContext,
    signals := request.signals.map convertRawSignal,
    businessPriority := none,
    companyAssessment := none,
    concernCount := request.signals.countP (fun s => s.category == some "risk"),
    severityLevel := "low" }

def fallbackResponse : AIGenerateResponse :=
  { summary := "Analysis complete. Review the detected signals.",
    modelUsed := "fallback", fallback := true }

/-- POST /api/generate-summary.  exc abstracts whether the body of the try
block raises (for instance a validation error while coercing the signal
dicts); some e is an exception carrying message e, none is normal completion. -/
def api_generate_summary (api_key : Bool) (gemini : Option String)
    (exc : Option String) (request : AIGenerateRequest) : AIGenerateResponse :=
  match exc with
  | some _ => fallbackResponse
  | none =>
    let result := generate_summary api_key gemini (endpointAIInput request)
    { summary := result.summary, modelUsed := "trustlens-v3", fallback := false }

/- ===== helper lemmas ===== -/

theorem filterMap_ite_eq_map_filter {α β : Type} (p : α → Bool) (g : α → β) :
    ∀ l : List α,
      l.filterMap (fun t => if p t then some (g t) else none) = (l.filter p).map g
  | [] => rfl
  | t :: ts => by
    by_cases h : p t
    · simp [List.filterMap_cons, List.filter_cons, h, filterMap_ite_eq_map_filter p g ts]
    · simp [List.filterMap_cons, List.filter_cons, h, filterMap_ite_eq_map_filter p g ts]

theorem engineSeverity_pair (n : ℕ) :
    ((engineSeverity n).1, (engineSeverity n).2.2)
      = (if 6 ≤ n then ("critical", (15 : ℤ))
         else if 3 ≤ n then ("high", 35)
         else if 1 ≤ n then ("moderate", 55)
         else ("low", 80)) := by
  unfold engineSeverity
  split_ifs <;> rfl

theorem option_toList_length_le_one {α : Type} (o : Option α) : o.toList.length ≤ 1 := by
  cases o <;> simp

/- ===== claims ===== -/

/-- Claim C1: for every analysis result produced by TrustLensEngine.analyze,
concernCount equals exactly the number of signals with level red in the
result's signal list, and (severityLevel, overall_score) is the step function
of that count evaluated first-match-wins: count ≥ 6 → critical/15;
3 ≤ count ≤ 5 → high/35; 1 ≤ count ≤ 2 → moderate/55; count = 0 → low/80. -/
theorem C1_concern_count_and_severity_step
    (api_key : Bool) (gemini : Option String) (scrape_result : Option ScrapeResult)
    (content content_type : String) :
    (analyze api_key gemini scrape_result content content_type).concernCount
      = (analyze api_key gemini scrape_result content content_type).signals.countP
          (fun s => s.level == .red)
    ∧ ((analyze api_key gemini scrape_result content content_type).severityLevel,
       (analyze api_key gemini scrape_result content content_type).overall_score)
      = (if 6 ≤ (analyze api_key gemini scrape_result content content_type).concernCount
           then ("critical", (15 : ℤ))
         else if 3 ≤ (analyze api_key gemini scrape_result content content_type).concernCount
           then ("high", 35)
         else if 1 ≤ (analyze api_key gemini scrape_result content content_type).concernCount
           then ("moderate", 55)
         else ("low", 80)) :=
  ⟨rfl, engineSeverity_pair _⟩

/-- Claim C2: the returned TrustAnalysis contains non-null businessPriority
and companyAssessment records if and only if the detected context is one of
partnership_offer, client_inquiry, vendor_proposal (the only other reachable
contexts being legal_agreement and consumer_message, for which both are
null). -/
theorem C2_business_assessments_iff_business_context
    (api_key : Bool) (gemini : Option String) (scrape_result : Option ScrapeResult)
    (content content_type : String) :
    ((analyze api_key gemini scrape_result content content_type).businessPriority ≠ none
      ↔ (analyze api_key gemini scrape_result content content_type).detectedContext
          ∈ ["partnership_offer", "client_inquiry", "vendor_proposal"])
    ∧ ((analyze api_key gemini scrape_result content content_type).companyAssessment ≠ none
      ↔ (analyze api_key gemini scrape_result content content_type).detectedContext
          ∈ ["partnership_offer", "client_inquiry", "vendor_proposal"]) := by
  have hbc : business_contexts = ["partnership_offer", "client_inquiry", "vendor_proposal"] := rfl
  by_cases h : detect_context content content_type ∈ business_contexts
  · constructor <;> simp [analyze, h, hbc ▸ h]
  · constructor <;> simp [analyze, h, hbc ▸ h]

/-- Claim C8: the severity derivation inlined in TrustLensEngine.analyze and
the one in TrustLensAI.determine_severity are extensionally equal: for every
AIInput the tier determine_severity computes from the concern count equals the
tier the engine's step function assigns to the same count, so the narrative
templates are always selected for exactly the tier the analysis result
reports. -/
theorem C8_severity_derivations_agree :
    (∀ input_data : AIInput,
       determine_severity input_data = (engineSeverity input_data.concernCount).1)
    ∧ (∀ (api_key : Bool) (gemini : Option String) (scrape_result : Option ScrapeResult)
         (content content_type : String),
       (analyze api_key gemini scrape_result content content_type).severityLevel
         = (engineSeverity
             (analyze api_key gemini scrape_result content content_type).concernCount).1) := by
  constructor
  · intro input_data
    simp only [determine_severity, engineSeverity]
    split_ifs <;> rfl
  · intro _ _ _ _ _
    rfl

/-- Claim C9: every request to POST /api/generate-summary whose processing
raises an exception gets the fixed fallback response (fallback = true,
modelUsed = "fallback", the generic summary) instead of a propagated error;
on success the endpoint returns fallback = false with the generated summary
and modelUsed = "trustlens-v3". -/
theorem C9_generate_summary_endpoint_fallback
    (api_key : Bool) (gemini : Option String) (request : AIGenerateRequest)
    (e : String) :
    api_generate_summary api_key gemini (some e) request
      = { summary := "Analysis complete. Review the detected signals.",
          modelUsed := "fallback", fallback := true }
    ∧ api_generate_summary api_key gemini none request
      = { summary := (generate_summary api_key gemini (endpointAIInput request)).summary,
          modelUsed := "trustlens-v3", fallback := false } :=
  ⟨rfl, rfl⟩

/-- Claim C3: the Legal Clause Rule emits no signals outside the
legal_agreement context; in that context the emitted list is exactly one
signal per pattern tuple whose regex matches the lower-cased content, in
pattern order, each carrying the tuple's display name, level red if the
tuple's intrinsic severity is VERY_HIGH or HIGH and yellow otherwise, and
confidence 0.95 / 0.85 / 0.75 for VERY_HIGH / HIGH / MEDIUM; and it is the
only rule that can emit more than one signal, the other two rules emitting
zero or one each. -/
theorem C3_legal_clause_rule (content context : String) :
    (context ≠ "legal_agreement" → legal_evaluate_all content context = [])
    ∧ legal_evaluate_all content "legal_agreement"
        = (CONCERNING_PATTERNS.filter (fun t => t.1.search (lowerL content))).map
            mkLegalSignal
    ∧ (∀ t : Regex × String × String,
        mkLegalSignal t
          = { name := t.2.1,
              level := if t.2.2 = "VERY_HIGH" ∨ t.2.2 = "HIGH" then .red else .yellow,
              message := t.2.2 ++ " RISK: " ++ t.2.1 ++
                " - This provision significantly affects your rights and recourse options.",
              confidence := if t.2.2 = "VERY_HIGH" then (0.95 : ℚ)
                            else if t.2.2 = "HIGH" then 0.85 else 0.75 })
    ∧ (∀ c ct ctx, (high_pressure_evaluate c ct ctx).toList.length ≤ 1
        ∧ (verifiability_evaluate c ct ctx).toList.length ≤ 1) := by
  refine ⟨?_, ?_, ?_, ?_⟩
  · intro h
    simp [legal_evaluate_all, h]
  · simp only [legal_evaluate_all, if_pos]
    exact filterMap_ite_eq_map_filter _ _ _
  · intro t
    rfl
  · intro c ct ctx
    exact ⟨option_toList_length_le_one _, option_toList_length_le_one _⟩

theorem C3_legal_clause_rule_witness :
    legal_evaluate_all "we may sell data" "consumer_message" = [] :=
  (C3_legal_clause_rule "we may sell data" "consumer_message").1 (by decide)

/-- Claim C4: detect_context classifies any text containing "terms of
service" or "user agreement" (after lower-casing), or at least two phrases of
the fixed legal-marker list, as legal_agreement; a text containing none of
the context keywords is classified consumer_message; and every input maps to
exactly one of the five context tags with no error path. -/
theorem C4_detect_context_classification (content content_type : String) :
    (containsStr "terms of service" (lowerL content) = true
       ∨ containsStr "user agreement" (lowerL content) = true
       ∨ 2 ≤ legal_count (lowerL content) →
     detect_context content content_type = "legal_agreement")
    ∧ ((∀ m ∈ legal_markers, containsStr m (lowerL content) = false) →
       (∀ w ∈ partnership_words, containsStr w (lowerL content) = false) →
       (∀ w ∈ client_words, containsStr w (lowerL content) = false) →
       (∀ w ∈ vendor_words, containsStr w (lowerL content) = false) →
       (∀ w ∈ employment_words, containsStr w (lowerL content) = false) →
       detect_context content content_type = "consumer_message")
    ∧ (detect_context content content_type = "legal_agreement"
       ∨ detect_context content content_type = "partnership_offer"
       ∨ detect_context content content_type = "client_inquiry"
       ∨ detect_context content content_type = "vendor_proposal"
       ∨ detect_context content content_type = "consumer_message") := by
  refine ⟨?_, ?_, ?_⟩
  · intro h
    rcases h with h | h | h <;> simp [detect_context, h]
  · intro h1 h2 h3 h4 h5
    have hlc : legal_count (lowerL content) = 0 := by
      refine List.countP_eq_zero.mpr ?_
      intro m hm
      simp [h1 m hm]
    have htos : containsStr "terms of service" (lowerL content) = false :=
      h1 "terms of service" (by simp [legal_markers])
    have hua : containsStr "user agreement" (lowerL content) = false :=
      h1 "user agreement" (by simp [legal_markers])
    have hp : ¬ partnership_words.any (fun w => containsStr w (lowerL content)) = true := by
      rw [List.any_eq_true]
      rintro ⟨w, hw, hcw⟩
      rw [h2 w hw] at hcw
      exact absurd hcw (by decide)
    have hc : ¬ client_words.any (fun w => containsStr w (lowerL content)) = true := by
      rw [List.any_eq_true]
      rintro ⟨w, hw, hcw⟩
      rw [h3 w hw] at hcw
      exact absurd hcw (by decide)
    have hv : ¬ vendor_words.any (fun w => containsStr w (lowerL content)) = true := by
      rw [List.any_eq_true]
      rintro ⟨w, hw, hcw⟩
      rw [h4 w hw] at hcw
      exact absurd hcw (by decide)
    have he : ¬ employment_words.any (fun w => containsStr w (lowerL content)) = true := by
      rw [List.any_eq_true]
      rintro ⟨w, hw, hcw⟩
      rw [h5 w hw] at hcw
      exact absurd hcw (by decide)
    simp [detect_context, hlc, htos, hua, hp, hc, hv, he]
  · simp only [detect_context]
    split_ifs <;> simp

theorem C4_detect_context_classification_witness :
    detect_context "Terms of Service" "text" = "legal_agreement"
    ∧ detect_context "" "text" = "consumer_message" :=
  ⟨(C4_detect_context_classification "Terms of Service" "text").1 (Or.inl (by decide)),
   (C4_detect_context_classification "" "text").2.1
     (by decide) (by decide) (by decide) (by decide) (by decide)⟩

/-- Claim C5: in every context, the High-Pressure Pattern Rule emits a red
"Predatory Pressure Pattern" signal with confidence 0.95 when the urgency,
action-demand and consequence cues all occur in the lower-cased content; a
red "High-Pressure Tactics" signal with confidence 0.85 when urgency and
action-demand occur but the consequence cue does not; and no signal in every
other case. -/
theorem C5_high_pressure_rule (content content_type context : String) :
    (anyWord urgency_words (lowerL content) = true →
     anyWord action_words (lowerL content) = true →
     anyWord consequence_words (lowerL content) = true →
     high_pressure_evaluate content content_type context
       = some { name := "Predatory Pressure Pattern", level := .red,
                message := "URGENT + ACTION DEMAND + CONSEQUENCE = classic manipulation tactic designed to bypass critical thinking.",
                confidence := 0.95 })
    ∧ (anyWord urgency_words (lowerL content) = true →
       anyWord action_words (lowerL content) = true →
       anyWord consequence_words (lowerL content) = false →
       high_pressure_evaluate content content_type context
         = some { name := "High-Pressure Tactics", level := .red,
                  message := "Urgency combined with action demands is a common social engineering pattern.",
                  confidence := 0.85 })
    ∧ (anyWord urgency_words (lowerL content) = false
        ∨ anyWord action_words (lowerL content) = false →
       high_pressure_evaluate content content_type context = none) := by
  refine ⟨?_, ?_, ?_⟩
  · intro hu ha hc
    simp [high_pressure_evaluate, hu, ha, hc]
  · intro hu ha hc
    simp [high_pressure_evaluate, hu, ha, hc]
  · intro h
    rcases h with h | h <;> simp [high_pressure_evaluate, h]

theorem C5_high_pressure_rule_witness :
    high_pressure_evaluate "urgent: click before offers expire" "text" "consumer_message"
      = some { name := "Predatory Pressure Pattern", level := .red,
               message := "URGENT + ACTION DEMAND + CONSEQUENCE = classic manipulation tactic designed to bypass critical thinking.",
               confidence := 0.95 } :=
  (C5_high_pressure_rule "urgent: click before offers expire" "text" "consumer_message").1
    (by decide) (by decide) (by decide)

/-- Claim C6: for the contexts partnership_offer, client_inquiry and
vendor_proposal (and no other context), the Verifiability Rule counts the
four cues (URL, LinkedIn reference, email domain, company-suffix token) and
emits a red "Zero Verifiable Identity" signal with confidence 0.9 at count 0,
a yellow "Limited Verifiability" signal with confidence 0.75 whose message
reports the exact count out of 4 at count 1 or 2, and no signal at count 3
or 4. -/
theorem C6_verifiability_rule (content content_type context : String) :
    (context ∈ business_contexts →
      (verifiable_count content = 0 →
        verifiability_evaluate content content_type context
          = some { name := "Zero Verifiable Identity", level := .red,
                   message := "No company website, LinkedIn, corporate email, or legal name provided. Cannot verify legitimacy.",
                   confidence := 0.9 })
      ∧ (1 ≤ verifiable_count content → verifiable_count content ≤ 2 →
        verifiability_evaluate content content_type context
          = some { name := "Limited Verifiability", level := .yellow,
                   message := "Only " ++ toString (verifiable_count content) ++
                     "/4 verification elements present. Request additional proof of legitimacy.",
                   confidence := 0.75 })
      ∧ (3 ≤ verifiable_count content →
        verifiability_evaluate content content_type context = none))
    ∧ (context ∉ business_contexts →
       verifiability_evaluate content content_type context = none) := by
  constructor
  · intro hctx
    refine ⟨?_, ?_, ?_⟩
    · intro h0
      simp [verifiability_evaluate, hctx, h0]
    · intro h1 h2
      have hne : ¬ verifiable_count content = 0 := by omega
      simp [verifiability_evaluate, hctx, hne, h2, limitedMessage]
    · intro h3
      have hne : ¬ verifiable_count content = 0 := by omega
      have hgt : ¬ verifiable_count content ≤ 2 := by omega
      simp [verifiability_evaluate, hctx, hne, hgt]
  · intro hctx
    simp [verifiability_evaluate, hctx]

theorem C6_verifiability_rule_witness :
    verifiability_evaluate "no identifying details at all" "text" "partnership_offer"
      = some { name := "Zero Verifiable Identity", level := .red,
               message := "No company website, LinkedIn, corporate email, or legal name provided. Cannot verify legitimacy.",
               confidence := 0.9 } :=
  ((C6_verifiability_rule "no identifying details at all" "text" "partnership_offer").1
    (by decide)).1 (by decide)

/-- Claim C7: when the enhancement call fails (exception, timeout, non-200
status — which enhance_with_gemini maps to none — or missing response shape),
the summary returned by TrustLensAI.generate_summary equals the
template-generated summary; and in all cases, success or failure, the
whatYouMightMiss text and the action list equal the template values computed
before the enhancement call, independent of the enhancement outcome. -/
theorem C7_enhancement_failure_frame (api_key : Bool) (input_data : AIInput)
    (status : Nat) (body : Option String) :
    (status ≠ 200 → enhance_with_gemini status body = none)
    ∧ (generate_summary api_key none input_data).summary
        = build_compound_explanation input_data.signals input_data.detectedContext
            (determine_severity input_data)
    ∧ (∀ gemini : Option String,
        (generate_summary api_key gemini input_data).whatYouMightMiss
          = build_what_you_might_miss input_data.signals input_data.detectedContext
              (determine_severity input_data)
        ∧ (generate_summary api_key gemini input_data).actions
          = build_actions input_data.detectedContext (determine_severity input_data)
              input_data.signals) := by
  refine ⟨?_, ?_, ?_⟩
  · intro h
    simp [enhance_with_gemini, h]
  · simp only [generate_summary]
    split <;> rfl
  · intro gemini
    exact ⟨rfl, rfl⟩

theorem C7_enhancement_failure_frame_witness :
    enhance_with_gemini 503 (some "rewritten summary") = none :=
  (C7_enhancement_failure_frame true
    { inputType := "text", originalInput := "sample", detectedContext := "legal_agreement",
      signals := [], businessPriority := none, companyAssessment := none,
      concernCount := 7, severityLevel := "critical" }
    503 (some "rewritten summary")).1 (by decide)

/-- Claim C10: detect_context maps any text whose first matching branch is
the employment-keyword test to consumer_message, the same value as the
no-match fallback, so the function's range is exactly the five tags
legal_agreement, partnership_offer, client_inquiry, vendor_proposal and
consumer_message and no dedicated employment context is ever produced. -/
theorem C10_employment_branch_and_range (content content_type : String) :
    ((¬ (2 ≤ legal_count (lowerL content)
          ∨ containsStr "terms of service" (lowerL content) = true
          ∨ containsStr "user agreement" (lowerL content) = true)) →
     partnership_words.any (fun w => containsStr w (lowerL content)) = false →
     client_words.any (fun w => containsStr w (lowerL content)) = false →
     ¬ (vendor_words.any (fun w => containsStr w (lowerL content)) = true
          ∧ ¬ containsStr "contract" (lowerL content) = true) →
     employment_words.any (fun w => containsStr w (lowerL content)) = true →
     detect_context content content_type = "consumer_message")
    ∧ detect_context content content_type ∈
        ["legal_agreement", "partnership_offer", "client_inquiry",
         "vendor_proposal", "consumer_message"]
    ∧ detect_context "terms of service" "text" = "legal_agreement"
    ∧ detect_context "a partnership for you" "text" = "partnership_offer"
    ∧ detect_context "a client inquiry" "text" = "client_inquiry"
    ∧ detect_context "a quote" "text" = "vendor_proposal"
    ∧ detect_context "hiring" "text" = "consumer_message" := by
  refine ⟨?_, ?_, by decide, by decide, by decide, by decide, by decide⟩
  · intro h1 h2 h3 h4 h5
    have h4' : ∀ x ∈ vendor_words, containsStr x (lowerL content) = true →
        containsStr "contract" (lowerL content) = true := by
      intro x hx hcx
      by_contra hc
      exact h4 ⟨List.any_eq_true.mpr ⟨x, hx, hcx⟩, hc⟩
    simp [detect_context, h1, h2, h3, h5]
    exact h4'
  · simp only [detect_context]
    split_ifs <;> simp

theorem C10_employment_branch_and_range_witness :
    detect_context "we are hiring" "email" = "consumer_message" :=
  (C10_employment_branch_and_range "we are hiring" "email").1
    (by decide) (by decide) (by decide) (by decide) (by decide)
